import Mathlib

/-!
Shallow embedding of the `aiogram_dependency` dependency-injection core
(`resolver.py`, `middleware.py`) together with a spec-modelled cache
registry (`registry.py` is not part of the sources; its `get`/`set`
semantics are taken from the spec, §4.1).

Python values are abstracted to `Value`; provider callables are
identified by `Nat` and described by a `ProviderSpec` (declared
parameters plus a body shape).  The resolver's recursion is modelled
with explicit fuel: exhausting the fuel corresponds to Python's
`RecursionError`.  All observable side effects (provider invocation,
resource opening, finalization, handler start/end, the cleanup report
print) are recorded in an event trace inside the resolver state.
-/

/-- Abstract Python values.  `Value.none` is Python `None`; `Value.event`
is the triggering event object passed verbatim; `Value.dataDict` stands
for the full context mapping passed verbatim. -/
inductive Value where
  | none
  | nat (n : Nat)
  | event
  | dataDict
deriving DecidableEq, Repr

/-- Dependency scope (`Scope` in `dependency.py`, names from the spec). -/
inductive Scope where
  | singleton
  | request
  | transient
deriving DecidableEq, Repr

/-- What a paused generator does when advanced a second time (the
finalize step): complete normally (`StopIteration`), raise an error, or
yield one more value. -/
inductive TOutcome where
  | stops
  | raisesErr
  | yieldsAgain
deriving DecidableEq, Repr

/-- Which shape-appropriate finalize step teardown performed, following
the dispatch order of `_cleanup_active_context`. -/
inductive FinStep where
  | advancedAsyncGen
  | advancedGen
  | exitedAsyncCtx
  | exitedSyncCtx
deriving DecidableEq, Repr

/-- Observable events of one resolution cycle. -/
inductive Event where
  | invoked (p : Nat) (kwargs : List (String × Value))
  | opened (p : Nat) (key : String)
  | finalized (p : Nat) (step : FinStep)
  | finalizeFailed (p : Nat) (step : FinStep)
  | cleanupReport (n : Nat)
  | handlerStarted
  | handlerReturned
  | handlerRaised
deriving DecidableEq, Repr

/-- An active resource handle stored in `active_contexts`: a paused
(a)sync generator or an entered (a)sync context manager, remembering the
provider it came from and how its finalize step will behave. -/
inductive Handle where
  | gen (p : Nat) (post : TOutcome)
  | agen (p : Nat) (post : TOutcome)
  | actx (p : Nat) (exitOk : Bool)
  | sctx (p : Nat) (exitOk : Bool)
deriving DecidableEq, Repr

/-- A declared parameter of a callable: its name and, when it carries a
`Depends(...)` marker, the marker's provider reference (`none` models
`Depends()` with an absent provider) and scope.  The `Annotated`/default
discovery mechanics of `_is_dependency_param` /
`_get_dependency_from_param` are abstracted into this field. -/
structure Param where
  name : String
  marker : Option (Option Nat × Scope)
deriving DecidableEq, Repr

/-- The body shape of a provider callable, mirroring the dispatch in
`_resolve_single_dependency` lines 91-109: plain (a)sync value, a raise
during invocation, (a)sync generator (possibly yielding nothing), or a
call returning an (a)sync context manager. -/
inductive ProviderBody where
  | value (v : Value)
  | asyncValue (v : Value)
  | raises
  | gen (first : Value) (post : TOutcome)
  | genEmpty
  | agen (first : Value) (post : TOutcome)
  | agenEmpty
  | syncCtx (enter : Value) (exitOk : Bool)
  | asyncCtx (enter : Value) (exitOk : Bool)
deriving DecidableEq, Repr

/-- A provider: its declared parameters and its body shape. -/
structure ProviderSpec where
  params : List Param
  body : ProviderBody
deriving DecidableEq, Repr

/-- The fixed program: every provider identity maps to its spec. -/
def Env : Type := Nat → ProviderSpec

/-- Errors a resolution can raise.  `recursionLimit` is Python's
`RecursionError` from unbounded recursion (modelled by fuel exhaustion);
`circular` is the `ValueError("Circular dependency detected: ...")`;
`providerError` is an exception raised by a provider body; `typeError`
is `inspect.signature(None)` failing on an absent nested provider;
`handlerError` is an exception raised by the handler itself. -/
inductive Err where
  | recursionLimit
  | circular (p : Nat)
  | providerError (p : Nat)
  | typeError
  | handlerError
deriving DecidableEq, Repr

/-- Mutable state of `DependencyResolver`: the registry cache store
(spec-modelled, keyed by provider identity and an optional cache key —
`none` is the per-provider SINGLETON slot), the `_resolving` set, the
`active_contexts` dict keyed by cache-key string, and the event trace. -/
structure RState where
  cache : List ((Option Nat × Option String) × Value)
  resolving : List (Option Nat)
  active : List (String × Handle)
  trace : List Event
deriving DecidableEq, Repr

/-- The state of a fresh resolver. -/
def initState : RState := ⟨[], [], [], []⟩

/-- Append one event to the trace. -/
def pushEvent (st : RState) (e : Event) : RState :=
  { st with trace := st.trace ++ [e] }

/-- Association-list lookup (Python `dict` read / `in` test). -/
def alookup {α : Type} (d : List (String × α)) (k : String) : Option α :=
  match d with
  | [] => Option.none
  | (k', v) :: rest => if k' = k then some v else alookup rest k

/-- Python dict write: overwrite an existing binding in place, else
append at the end (insertion order preserved). -/
def dictInsert {α : Type} (d : List (String × α)) (k : String) (v : α) :
    List (String × α) :=
  match d with
  | [] => [(k, v)]
  | (k', v') :: rest =>
      if k' = k then (k, v) :: rest else (k', v') :: dictInsert rest k v

/-- Python `del d[k]`: remove the binding for `k` (first occurrence). -/
def eraseKey {α : Type} (d : List (String × α)) (k : String) :
    List (String × α) :=
  match d with
  | [] => []
  | (k', v') :: rest =>
      if k' = k then rest else (k', v') :: eraseKey rest k

/-- `dict.update`: fold every binding of the second dict into the first. -/
def dictUpdate {α : Type} (d upd : List (String × α)) : List (String × α) :=
  upd.foldl (fun acc kv => dictInsert acc kv.1 kv.2) d

/-- Python `set.add` on the resolving set. -/
def addSet (x : Option Nat) (s : List (Option Nat)) : List (Option Nat) :=
  if x ∈ s then s else x :: s

/-- Python `set.discard` on the resolving set. -/
def removeSet (x : Option Nat) (s : List (Option Nat)) : List (Option Nat) :=
  s.filter (fun y => y ≠ x)

/-- Modelled from the spec: `registry.py` is not among the sources.
`DependencyRegistry.get_dependency` per spec §4.1: TRANSIENT always
absent; SINGLETON ignores the cache key (one slot per provider);
REQUEST looks up `(provider, key)`. -/
def regGet (c : List ((Option Nat × Option String) × Value))
    (dep : Option Nat) (scope : Scope) (key : String) : Option Value :=
  match scope with
  | .transient => Option.none
  | .singleton => (c.find? (fun e => e.1 = (dep, Option.none))).map Prod.snd
  | .request => (c.find? (fun e => e.1 = (dep, some key))).map Prod.snd

/-- Write one cache entry, overwriting an existing one for the same
slot. -/
def cacheWrite (c : List ((Option Nat × Option String) × Value))
    (slot : Option Nat × Option String) (v : Value) :
    List ((Option Nat × Option String) × Value) :=
  match c with
  | [] => [(slot, v)]
  | (s', v') :: rest =>
      if s' = slot then (slot, v) :: rest else (s', v') :: cacheWrite rest slot v

/-- Modelled from the spec: `registry.py` is not among the sources.
`DependencyRegistry.set_dependency` per spec §4.1: TRANSIENT writes
nothing; SINGLETON writes the per-provider slot ignoring the key;
REQUEST writes under `(provider, key)`. -/
def regSet (c : List ((Option Nat × Option String) × Value))
    (dep : Option Nat) (v : Value) (scope : Scope) (key : String) :
    List ((Option Nat × Option String) × Value) :=
  match scope with
  | .transient => c
  | .singleton => cacheWrite c (dep, Option.none) v
  | .request => cacheWrite c (dep, some key) v

/-- The resolver's cache-hit test (`if cached_value is not None`): a
fetched value is served only when present and not Python `None` — a
stored `None` is indistinguishable from absence. -/
def servedCache (c : Option Value) : Option Value :=
  match c with
  | some v => if v = Value.none then Option.none else some v
  | Option.none => Option.none

/-- Whether a handle's single finalize step succeeds: a generator
advance succeeds unless the post-yield code raises; a context-manager
exit succeeds when `__exit__`/`__aexit__` does not raise. -/
def finalizeOk : Handle → Bool
  | .gen _ post => post ≠ TOutcome.raisesErr
  | .agen _ post => post ≠ TOutcome.raisesErr
  | .actx _ exitOk => exitOk
  | .sctx _ exitOk => exitOk

/-- The shape-appropriate finalize step chosen by the dispatch in
`_cleanup_active_context` (async generator, then generator, then
`__aexit__`, then `__exit__`). -/
def finStep : Handle → FinStep
  | .gen _ _ => .advancedGen
  | .agen _ _ => .advancedAsyncGen
  | .actx _ _ => .exitedAsyncCtx
  | .sctx _ _ => .exitedSyncCtx

/-- The provider a handle belongs to. -/
def handleProv : Handle → Nat
  | .gen p _ => p
  | .agen p _ => p
  | .actx p _ => p
  | .sctx p _ => p

/-- The trace event recorded for one finalize step of one handle. -/
def finEvent (h : Handle) : Event :=
  if finalizeOk h then .finalized (handleProv h) (finStep h)
  else .finalizeFailed (handleProv h) (finStep h)

/-- The loop body of `_cleanup_active_context`: iterate over a snapshot
of the items, perform one finalize step per handle, delete the handle
from the live dict on success, collect the failure otherwise. -/
def cleanupLoop : List (String × Handle) → List (String × Handle) →
    List Event → Nat → List (String × Handle) × List Event × Nat
  | [], dict, tr, errs => (dict, tr, errs)
  | (k, h) :: rest, dict, tr, errs =>
      if finalizeOk h then
        cleanupLoop rest (eraseKey dict k) (tr ++ [finEvent h]) errs
      else
        cleanupLoop rest dict (tr ++ [finEvent h]) (errs + 1)

/-- `_cleanup_active_context`: finalize every active handle, catching
each failure individually; afterwards, if any failures were collected,
emit the non-raising aggregate report (the `print`).  The function is
total — no exception ever reaches the caller. -/
def cleanupActiveContext (st : RState) : RState :=
  let r := cleanupLoop st.active st.active st.trace 0
  { st with
    active := r.1
    trace := if r.2.2 = 0 then r.2.1 else r.2.1 ++ [.cleanupReport r.2.2] }

/-- `_handle_generator`: create the generator and advance it once.  The
first yielded value is the resolved value and the paused generator is
registered in `active_contexts` under the cache-key string alone; a
generator that yields nothing (`StopIteration`) resolves to `None` and
registers nothing. -/
def handleGenerator (p : Nat) (g : Option (Value × TOutcome)) (key : String)
    (st : RState) : Value × RState :=
  match g with
  | some (v, post) =>
      (v, { st with
              active := dictInsert st.active key (.gen p post)
              trace := st.trace ++ [.opened p key] })
  | Option.none => (Value.none, st)

/-- `_handle_async_generator`: as `_handle_generator`, for the async
shape. -/
def handleAsyncGenerator (p : Nat) (g : Option (Value × TOutcome))
    (key : String) (st : RState) : Value × RState :=
  match g with
  | some (v, post) =>
      (v, { st with
              active := dictInsert st.active key (.agen p post)
              trace := st.trace ++ [.opened p key] })
  | Option.none => (Value.none, st)

/-- `_handle_sync_context_manager`: enter the context manager; the
entered value is the resolved value and the open manager is registered
under the cache-key string alone. -/
def handleSyncContextManager (p : Nat) (enter : Value) (exitOk : Bool)
    (key : String) (st : RState) : Value × RState :=
  (enter, { st with
              active := dictInsert st.active key (.sctx p exitOk)
              trace := st.trace ++ [.opened p key] })

/-- `_handle_async_context_manager`: as the sync variant, via
`__aenter__`. -/
def handleAsyncContextManager (p : Nat) (enter : Value) (exitOk : Bool)
    (key : String) (st : RState) : Value × RState :=
  (enter, { st with
              active := dictInsert st.active key (.actx p exitOk)
              trace := st.trace ++ [.opened p key] })

/-- Invoke a provider body with assembled kwargs already fixed,
mirroring the shape dispatch of `_resolve_single_dependency`
lines 91-109. -/
def invokeBody (p : Nat) (b : ProviderBody) (key : String) (st : RState) :
    Except Err Value × RState :=
  match b with
  | .value v => (.ok v, st)
  | .asyncValue v => (.ok v, st)
  | .raises => (.error (.providerError p), st)
  | .gen first post =>
      let r := handleGenerator p (some (first, post)) key st
      (.ok r.1, r.2)
  | .genEmpty =>
      let r := handleGenerator p Option.none key st
      (.ok r.1, r.2)
  | .agen first post =>
      let r := handleAsyncGenerator p (some (first, post)) key st
      (.ok r.1, r.2)
  | .agenEmpty =>
      let r := handleAsyncGenerator p Option.none key st
      (.ok r.1, r.2)
  | .syncCtx enter exitOk =>
      let r := handleSyncContextManager p enter exitOk key st
      (.ok r.1, r.2)
  | .asyncCtx enter exitOk =>
      let r := handleAsyncContextManager p enter exitOk key st
      (.ok r.1, r.2)

/-- One iteration of the parameter loop of `_resolve_single_dependency`
(lines 69-88), parametric in the resolver used for nested markers.  The
priority chain is: the reserved name `"event"` receives the event
verbatim, the reserved name `"data"` receives the whole context mapping
verbatim, then a same-named context entry, then a same-named entry of
`resolved_deps`, and only then a dependency marker triggers a nested
resolution; a parameter matching none of these is skipped
(`Option.none`). -/
def assembleStep
    (rsd : Option Nat → Scope → List (String × Value) → String →
      List (String × Value) → RState → Except Err Value × RState)
    (prm : Param) (data : List (String × Value)) (key : String)
    (resolved : List (String × Value)) (st : RState) :
    Except Err (Option Value) × RState :=
  if prm.name = "event" then (.ok (some Value.event), st)
  else if prm.name = "data" then (.ok (some Value.dataDict), st)
  else match alookup data prm.name with
    | some v => (.ok (some v), st)
    | Option.none =>
      match alookup resolved prm.name with
      | some v => (.ok (some v), st)
      | Option.none =>
        match prm.marker with
        | some (depRef, sc) =>
            match rsd depRef sc data key resolved st with
            | (.ok v, st') => (.ok (some v), st')
            | (.error e, st') => (.error e, st')
        | Option.none => (.ok Option.none, st)

/-- The parameter-assembly loop of `_resolve_single_dependency`
lines 69-88: run `assembleStep` for every declared parameter in
declaration order, accumulating the kwargs mapping. -/
def assembleKwargsAux
    (rsd : Option Nat → Scope → List (String × Value) → String →
      List (String × Value) → RState → Except Err Value × RState) :
    List Param → List (String × Value) → String → List (String × Value) →
    RState → Except Err (List (String × Value)) × RState
  | [], _, _, _, st => (.ok [], st)
  | prm :: rest, data, key, resolved, st =>
      match assembleStep rsd prm data key resolved st with
      | (.error e, st') => (.error e, st')
      | (.ok ov, st') =>
          match assembleKwargsAux rsd rest data key resolved st' with
          | (.error e, st'') => (.error e, st'')
          | (.ok kws, st'') =>
              match ov with
              | some v => (.ok ((prm.name, v) :: kws), st'')
              | Option.none => (.ok kws, st'')

/-- The try-block of `_resolve_single_dependency` (lines 64-113):
assemble the provider's kwargs (recursing for markers), invoke the body
per its shape, and write the resolved value into the registry cache.  An
absent provider reference fails at `inspect.signature(None)`. -/
def resolveBody (env : Env)
    (rsd : Option Nat → Scope → List (String × Value) → String →
      List (String × Value) → RState → Except Err Value × RState)
    (dep : Option Nat) (scope : Scope) (data : List (String × Value))
    (key : String) (resolved : List (String × Value)) (st : RState) :
    Except Err Value × RState :=
  match dep with
  | Option.none => (.error .typeError, st)
  | some p =>
      match assembleKwargsAux rsd (env p).params data key resolved st with
      | (.error e, st') => (.error e, st')
      | (.ok kwargs, st') =>
          let st2 := pushEvent st' (.invoked p kwargs)
          match invokeBody p (env p).body key st2 with
          | (.error e, st3) => (.error e, st3)
          | (.ok v, st3) =>
              (.ok v, { st3 with cache := regSet st3.cache dep v scope key })

/-- One step of `_resolve_single_dependency` given the resolver for
strictly deeper calls: serve a non-`None` cached value immediately
(before touching the resolving set); otherwise add the provider to the
resolving set, run the try-block, and — in the `finally` — run
`_cleanup_active_context` and discard the provider from the resolving
set on every exit path. -/
def resolveSingleCore (env : Env)
    (rsd : Option Nat → Scope → List (String × Value) → String →
      List (String × Value) → RState → Except Err Value × RState)
    (dep : Option Nat) (scope : Scope) (data : List (String × Value))
    (key : String) (resolved : List (String × Value)) (st : RState) :
    Except Err Value × RState :=
  match servedCache (regGet st.cache dep scope key) with
  | some v => (.ok v, st)
  | Option.none =>
      let st1 := { st with resolving := addSet dep st.resolving }
      let r := resolveBody env rsd dep scope data key resolved st1
      let st3 := cleanupActiveContext r.2
      (r.1, { st3 with resolving := removeSet dep st3.resolving })

/-- `_resolve_single_dependency`, with explicit fuel for the recursion:
running out of fuel is Python's `RecursionError`. -/
def resolveSingle (env : Env) : Nat →
    Option Nat → Scope → List (String × Value) → String →
    List (String × Value) → RState → Except Err Value × RState
  | 0 => fun _ _ _ _ _ st => (.error .recursionLimit, st)
  | fuel + 1 =>
      resolveSingleCore env
        (fun dep scope data key resolved st =>
          resolveSingle env fuel dep scope data key resolved st)

/-- The per-parameter loop of `resolve_dependencies` (lines 26-44):
for each handler parameter carrying a marker, record `None` for an
absent provider reference and continue; otherwise run the (dead, see
the cycle-detection theorems) circular check and resolve the provider,
accumulating results in declaration order. -/
def resolveLoop (env : Env) (fuel : Nat) :
    List Param → List (String × Value) → String → List (String × Value) →
    RState → Except Err (List (String × Value)) × RState
  | [], _, _, resolved, st => (.ok resolved, st)
  | prm :: rest, data, key, resolved, st =>
      match prm.marker with
      | Option.none => resolveLoop env fuel rest data key resolved st
      | some (Option.none, _) =>
          resolveLoop env fuel rest data key
            (resolved ++ [(prm.name, Value.none)]) st
      | some (some d, sc) =>
          if (some d) ∈ st.resolving then (.error (.circular d), st)
          else
            match resolveSingle env fuel (some d) sc data key resolved st with
            | (.error e, st') => (.error e, st')
            | (.ok v, st') =>
                resolveLoop env fuel rest data key
                  (resolved ++ [(prm.name, v)]) st'

/-- `DependencyResolver.resolve_dependencies`: when the context carries
no handler callback the result is the empty mapping; otherwise resolve
every marker-carrying handler parameter. -/
def resolveDependencies (env : Env) (fuel : Nat)
    (handlerParams : Option (List Param)) (data : List (String × Value))
    (key : String) (st : RState) :
    Except Err (List (String × Value)) × RState :=
  match handlerParams with
  | Option.none => (.ok [], st)
  | some params => resolveLoop env fuel params data key [] st

/-- The handler as the middleware sees it: its declared parameters (or
`none` when the context has no handler callback), whether it raises, and
its return value. -/
structure HandlerSpec where
  params : Option (List Param)
  raises : Bool
  ret : Value
deriving Repr

/-- `DependencyMiddleware.__call__`: resolve the handler's dependencies,
merge them into the context mapping, invoke the handler on the merged
context, and return the handler's result unchanged; a resolution failure
propagates and the handler is never invoked.  The returned triple is
(outcome, the context mapping as passed to the handler, final state). -/
def middlewareCall (env : Env) (fuel : Nat) (h : HandlerSpec)
    (data : List (String × Value)) (key : String) (st : RState) :
    Except Err Value × List (String × Value) × RState :=
  match resolveDependencies env fuel h.params data key st with
  | (.error e, st') => (.error e, data, st')
  | (.ok resolved, st') =>
      let data' := dictUpdate data resolved
      let st2 := pushEvent st' .handlerStarted
      if h.raises then (.error .handlerError, data', pushEvent st2 .handlerRaised)
      else (.ok h.ret, data', pushEvent st2 .handlerReturned)

/-!
## General lemmas about teardown and the resolving set
-/

/-- The dict that remains after erasing, from `d`, the key of every
handle of `snap` whose finalize step succeeds. -/
def removeOk : List (String × Handle) → List (String × Handle) → List (String × Handle)
  | [], d => d
  | (k, h) :: rest, d => removeOk rest (if finalizeOk h then eraseKey d k else d)

/-- Unfolded characterization of the teardown loop: it finalizes every
snapshot entry (one event each, in order), counts the failures, and
erases exactly the successfully finalized keys from the live dict. -/
theorem cleanupLoop_spec (snap : List (String × Handle)) :
    ∀ dict tr errs, cleanupLoop snap dict tr errs =
      (removeOk snap dict, tr ++ snap.map (fun e => finEvent e.2),
       errs + snap.countP (fun e => !finalizeOk e.2)) := by
  induction snap with
  | nil => intro dict tr errs; simp [cleanupLoop, removeOk]
  | cons x rest ih =>
      intro dict tr errs
      obtain ⟨k, h⟩ := x
      by_cases hf : finalizeOk h
      · simp [cleanupLoop, hf, removeOk, ih, List.countP_cons]
      · simp [cleanupLoop, hf, removeOk, ih, List.countP_cons]
        omega

theorem eraseKey_cons_ne {α : Type} (k' : String) (v : α) (d : List (String × α))
    (k : String) (hne : k' ≠ k) :
    eraseKey ((k', v) :: d) k = (k', v) :: eraseKey d k := by
  simp [eraseKey, hne]

theorem removeOk_cons (snap : List (String × Handle)) :
    ∀ (x : String × Handle) (d : List (String × Handle)),
      x.1 ∉ snap.map Prod.fst → removeOk snap (x :: d) = x :: removeOk snap d := by
  induction snap with
  | nil => intro x d _; simp [removeOk]
  | cons y rest ih =>
      intro x d hx
      obtain ⟨k, h⟩ := y
      simp only [List.map_cons, List.mem_cons] at hx
      push_neg at hx
      have hxk : x.1 ≠ k := hx.1
      by_cases hf : finalizeOk h
      · simp only [removeOk, hf, if_true]
        rw [show eraseKey (x :: d) k = x :: eraseKey d k by
              obtain ⟨xk, xv⟩ := x; exact eraseKey_cons_ne xk xv d k hxk]
        exact ih x _ hx.2
      · simp only [removeOk, hf, if_false]
        exact ih x d hx.2

/-- With pairwise-distinct keys (the dict invariant), running the
teardown loop against its own snapshot leaves exactly the handles whose
finalize step failed. -/
theorem removeOk_self (l : List (String × Handle))
    (hnd : (l.map Prod.fst).Nodup) :
    removeOk l l = l.filter (fun e => !finalizeOk e.2) := by
  induction l with
  | nil => simp [removeOk]
  | cons x rest ih =>
      obtain ⟨k, h⟩ := x
      simp only [List.map_cons, List.nodup_cons] at hnd
      cases hf : finalizeOk h with
      | true =>
          simp only [removeOk, hf, if_true, List.filter_cons, Bool.not_true]
          rw [show eraseKey ((k, h) :: rest) k = rest by simp [eraseKey]]
          simp only [Bool.false_eq_true, if_false]
          exact ih hnd.2
      | false =>
          simp only [removeOk, hf, Bool.false_eq_true, if_false, List.filter_cons,
            Bool.not_false, if_true]
          rw [removeOk_cons rest (k, h) rest hnd.1]
          rw [ih hnd.2]

theorem mem_removeSet (x d : Option Nat) (s : List (Option Nat)) :
    x ∈ removeSet d s ↔ x ∈ s ∧ x ≠ d := by
  simp [removeSet, List.mem_filter]

theorem mem_addSet (x d : Option Nat) (s : List (Option Nat))
    (hx : x ∈ addSet d s) : x = d ∨ x ∈ s := by
  unfold addSet at hx
  split at hx
  · exact Or.inr hx
  · rcases List.mem_cons.mp hx with h | h
    · exact Or.inl h
    · exact Or.inr h

/-- Invoking a provider body never touches the resolving set. -/
theorem invokeBody_resolving (p : Nat) (b : ProviderBody) (key : String) (st : RState) :
    ((invokeBody p b key st).2).resolving = st.resolving := by
  cases b <;> rfl

/-- Teardown never touches the resolving set. -/
theorem cleanup_resolving (st : RState) :
    (cleanupActiveContext st).resolving = st.resolving := rfl

/-- One assembly step only shrinks the resolving set, provided the
nested resolver does. -/
theorem assembleStep_sub
    (rsd : Option Nat → Scope → List (String × Value) → String →
      List (String × Value) → RState → Except Err Value × RState)
    (hr : ∀ dep sc data key resolved st x,
      x ∈ ((rsd dep sc data key resolved st).2).resolving → x ∈ st.resolving)
    (prm : Param) (data : List (String × Value)) (key : String)
    (resolved : List (String × Value)) (st : RState) (x : Option Nat)
    (hx : x ∈ ((assembleStep rsd prm data key resolved st).2).resolving) :
    x ∈ st.resolving := by
  unfold assembleStep at hx
  split at hx
  · exact hx
  · split at hx
    · exact hx
    · split at hx
      · exact hx
      · split at hx
        · exact hx
        · split at hx
          · split at hx
            · rename_i v st' heq
              exact hr _ _ _ _ _ _ x (by rw [heq]; exact hx)
            · rename_i e st' heq
              exact hr _ _ _ _ _ _ x (by rw [heq]; exact hx)
          · exact hx

/-- Kwargs assembly only shrinks the resolving set, provided the nested
resolver does. -/
theorem assembleKwargs_sub
    (rsd : Option Nat → Scope → List (String × Value) → String →
      List (String × Value) → RState → Except Err Value × RState)
    (hr : ∀ dep sc data key resolved st x,
      x ∈ ((rsd dep sc data key resolved st).2).resolving → x ∈ st.resolving) :
    ∀ (params : List Param) (data : List (String × Value)) (key : String)
      (resolved : List (String × Value)) (st : RState) (x : Option Nat),
      x ∈ ((assembleKwargsAux rsd params data key resolved st).2).resolving →
      x ∈ st.resolving := by
  intro params
  induction params with
  | nil => intro data key resolved st x hx; exact hx
  | cons prm rest ih =>
      intro data key resolved st x hx
      unfold assembleKwargsAux at hx
      cases hstep : assembleStep rsd prm data key resolved st with
      | mk r st' =>
        rw [hstep] at hx
        cases r with
        | error e =>
            simp only at hx
            have h := assembleStep_sub rsd hr prm data key resolved st x
            rw [hstep] at h
            exact h hx
        | ok ov =>
            simp only at hx
            cases hrec : assembleKwargsAux rsd rest data key resolved st' with
            | mk r2 st'' =>
              rw [hrec] at hx
              have hstep' := assembleStep_sub rsd hr prm data key resolved st x
              rw [hstep] at hstep'
              have hih := ih data key resolved st' x
              rw [hrec] at hih
              cases r2 with
              | error e => simp only at hx; exact hstep' (hih hx)
              | ok kws => cases ov <;> simp only at hx <;> exact hstep' (hih hx)

/-- The provider try-block only shrinks the resolving set, provided the
nested resolver does. -/
theorem resolveBody_sub (env : Env)
    (rsd : Option Nat → Scope → List (String × Value) → String →
      List (String × Value) → RState → Except Err Value × RState)
    (hr : ∀ dep sc data key resolved st x,
      x ∈ ((rsd dep sc data key resolved st).2).resolving → x ∈ st.resolving)
    (dep : Option Nat) (sc : Scope) (data : List (String × Value)) (key : String)
    (resolved : List (String × Value)) (st : RState) (x : Option Nat)
    (hx : x ∈ ((resolveBody env rsd dep sc data key resolved st).2).resolving) :
    x ∈ st.resolving := by
  unfold resolveBody at hx
  split at hx
  · exact hx
  · rename_i p
    split at hx
    · rename_i e st' heq
      have h := assembleKwargs_sub rsd hr (env p).params data key resolved st x
      rw [heq] at h
      exact h hx
    · rename_i kwargs st' heq
      have h := assembleKwargs_sub rsd hr (env p).params data key resolved st x
      rw [heq] at h
      simp only [] at hx
      split at hx
      · rename_i e st3 heq2
        have h2 := invokeBody_resolving p (env p).body key (pushEvent st' (.invoked p kwargs))
        rw [heq2] at h2
        simp only at hx
        rw [h2] at hx
        exact h hx
      · rename_i v st3 heq2
        have h2 := invokeBody_resolving p (env p).body key (pushEvent st' (.invoked p kwargs))
        rw [heq2] at h2
        simp only at hx
        rw [h2] at hx
        exact h hx

/-- `_resolve_single_dependency` only shrinks the resolving set: any
provider still marked as resolving afterwards was already marked
beforehand. -/
theorem resolveSingle_sub (env : Env) :
    ∀ (fuel : Nat) (dep : Option Nat) (sc : Scope) (data : List (String × Value))
      (key : String) (resolved : List (String × Value)) (st : RState) (x : Option Nat),
      x ∈ ((resolveSingle env fuel dep sc data key resolved st).2).resolving →
      x ∈ st.resolving := by
  intro fuel
  induction fuel with
  | zero => intro dep sc data key resolved st x hx; exact hx
  | succ n ih =>
      intro dep sc data key resolved st x hx
      unfold resolveSingle resolveSingleCore at hx
      split at hx
      · exact hx
      · simp only [cleanup_resolving] at hx
        rw [mem_removeSet] at hx
        obtain ⟨hmem, hne⟩ := hx
        have h := resolveBody_sub env _
          (fun dep sc data key resolved st x hx => ih dep sc data key resolved st x hx)
          dep sc data key resolved { st with resolving := addSet dep st.resolving } x hmem
        rcases mem_addSet x dep st.resolving h with h' | h'
        · exact absurd h' hne
        · exact h'

/-- The top-level resolution loop only shrinks the resolving set. -/
theorem resolveLoop_sub (env : Env) (fuel : Nat) :
    ∀ (params : List Param) (data : List (String × Value)) (key : String)
      (resolved : List (String × Value)) (st : RState) (x : Option Nat),
      x ∈ ((resolveLoop env fuel params data key resolved st).2).resolving →
      x ∈ st.resolving := by
  intro params
  induction params with
  | nil => intro data key resolved st x hx; exact hx
  | cons prm rest ih =>
      intro data key resolved st x hx
      obtain ⟨nm, mk⟩ := prm
      unfold resolveLoop at hx
      cases mk with
      | none => exact ih data key resolved st x hx
      | some pr =>
        obtain ⟨od, s0⟩ := pr
        cases od with
        | none => exact ih data key _ st x hx
        | some d =>
          simp only [] at hx
          by_cases hmem : (some d) ∈ st.resolving
          · rw [if_pos hmem] at hx
            exact hx
          · rw [if_neg hmem] at hx
            cases heq : resolveSingle env fuel (some d) s0 data key resolved st with
            | mk r st' =>
              rw [heq] at hx
              have h := resolveSingle_sub env fuel (some d) s0 data key resolved st x
              rw [heq] at h
              cases r with
              | error e => exact h hx
              | ok v => exact h (ih data key _ st' x hx)

/-!
## Claim theorems
-/

/-- A program with one synchronous resource-generator provider
(identity 1, first yield `7`, post-yield code completing normally) and
no parameters. -/
def envGenOne : Env := fun p =>
  match p with
  | 1 => ⟨[], .gen (.nat 7) .stops⟩
  | _ => ⟨[], .value (.nat 0)⟩

/-- C1: the claim states that a resource provider's post-yield code runs
only at teardown after the handler completes, and never before the
handler is invoked.  The code violates this: `_resolve_single_dependency`
runs `_cleanup_active_context` in its own `finally`, so the generator's
post-yield step (`Event.finalized 1 .advancedGen`) appears in the trace
strictly before `Event.handlerStarted`, and the middleware performs no
teardown at all after the handler (no events follow
`Event.handlerReturned`). -/
theorem c1_resource_finalized_before_handler :
    middlewareCall envGenOne 5
        ⟨some [⟨"db", some (some 1, .request)⟩], false, .nat 0⟩ [] "k" initState =
      (.ok (.nat 0), [("db", .nat 7)],
       ⟨[((some 1, some "k"), .nat 7)], [], [],
        [.invoked 1 [], .opened 1 "k", .finalized 1 .advancedGen,
         .handlerStarted, .handlerReturned]⟩) := rfl

/-- A program with one provider (identity 2) that depends on itself. -/
def envC2 : Env := fun p =>
  match p with
  | 2 => ⟨[⟨"a", some (some 2, .request)⟩], .value (.nat 1)⟩
  | _ => ⟨[], .value (.nat 0)⟩

/-- Resolving the self-dependent provider exhausts any amount of fuel:
the nested recursion at resolver line 85 re-enters
`_resolve_single_dependency` without any cycle check, so the run ends in
Python's `RecursionError`, with the state's trace, cache and active set
untouched. -/
theorem c2_aux : ∀ fuel (st : RState), st.cache = [] → st.active = [] →
    ∃ st', resolveSingle envC2 fuel (some 2) .request [] "k" [] st =
        (.error .recursionLimit, st') ∧
      st'.trace = st.trace ∧ st'.cache = [] ∧ st'.active = [] := by
  intro fuel
  induction fuel with
  | zero => intro st hc ha; exact ⟨st, rfl, rfl, hc, ha⟩
  | succ n ih =>
      intro st hc ha
      have hserved : servedCache (regGet st.cache (some 2) .request "k") = Option.none := by
        rw [hc]; rfl
      obtain ⟨st', h1, h2, h3, h4⟩ :=
        ih { st with resolving := addSet (some 2) st.resolving } hc ha
      have hclean : cleanupActiveContext st' = st' := by
        unfold cleanupActiveContext
        rw [h4]
        simp only [cleanupLoop]
        rw [← h4]
        simp
      refine ⟨{ st' with resolving := removeSet (some 2) st'.resolving }, ?_, h2, h3, h4⟩
      simp only [resolveSingle, resolveSingleCore, hserved]
      simp only [resolveBody, envC2, assembleKwargsAux, assembleStep]
      simp only [show ("a" = "event") = False by simp, show ("a" = "data") = False by simp,
        if_false, alookup, h1, hclean]

/-- C2: the claim states that a provider depending on itself fails with
a circular-dependency error before being invoked a second time.  The
code violates this: the only cycle check sits in `resolve_dependencies`
where `_resolving` is always already empty, while the nested recursion
in `_resolve_single_dependency` has no check, so resolving a handler
parameter marked with the self-dependent provider ends in
`RecursionError` (never `Err.circular`), for every recursion budget,
with the provider never invoked at all (empty trace). -/
theorem c2_self_cycle_recursion_not_circular : ∀ fuel,
    (resolveDependencies envC2 fuel
        (some [⟨"h", some (some 2, .request)⟩]) [] "k" initState).1
      = .error .recursionLimit ∧
    (resolveDependencies envC2 fuel
        (some [⟨"h", some (some 2, .request)⟩]) [] "k" initState).2.trace
      = [] := by
  intro fuel
  obtain ⟨st', h1, h2, h3, h4⟩ := c2_aux fuel initState rfl rfl
  have hmem : ((some 2 : Option Nat) ∈ initState.resolving) = False := by
    simp [initState]
  simp only [resolveDependencies, resolveLoop, hmem, if_false, h1]
  exact ⟨trivial, h2.trans rfl⟩

/-- A program where provider 1 is a resource generator (first yield `v`)
and provider 2 raises on invocation. -/
def envPartial (v : Nat) : Env := fun p =>
  match p with
  | 1 => ⟨[], .gen (.nat v) .stops⟩
  | 2 => ⟨[], .raises⟩
  | _ => ⟨[], .value (.nat 0)⟩

/-- C3: with dependency 1 opening a resource and dependency 2 (resolved
afterwards in the same batch) raising, the provider error propagates to
the caller of `resolve_dependencies` (the batch aborts), while
dependency 1's resource has received its finalize step exactly once
(`Event.finalized 1 .advancedGen` appears exactly once in the trace) and
no opened handle is left behind (`active = []`): the failed batch leaks
nothing. -/
theorem c3_partial_failure_resource_finalized_once : ∀ v : Nat,
    resolveDependencies (envPartial v) 3
        (some [⟨"a", some (some 1, .request)⟩, ⟨"b", some (some 2, .request)⟩])
        [] "k" initState =
      (.error (.providerError 2),
       ⟨[((some 1, some "k"), .nat v)], [], [],
        [.invoked 1 [], .opened 1 "k", .finalized 1 .advancedGen, .invoked 2 []]⟩) ∧
    ((resolveDependencies (envPartial v) 3
        (some [⟨"a", some (some 1, .request)⟩, ⟨"b", some (some 2, .request)⟩])
        [] "k" initState).2.trace.count (.finalized 1 .advancedGen) = 1) := by
  intro v
  exact ⟨rfl, rfl⟩

/-- C4: `_cleanup_active_context` performs exactly one shape-appropriate
finalize step per active handle (one `finEvent` per handle, in order,
recording whether a generator was advanced or a context manager
exited); each failure is caught and counted individually so the loop
never aborts early; a handle is removed from the active set exactly when
its finalize step succeeded; and collected failures surface only as the
single non-raising aggregate `Event.cleanupReport` — the function is
total, so no exception reaches the caller. -/
theorem c4_teardown_processes_every_handle (st : RState)
    (hnd : (st.active.map Prod.fst).Nodup) :
    (cleanupActiveContext st).active = st.active.filter (fun e => !finalizeOk e.2) ∧
    (cleanupActiveContext st).trace =
      st.trace ++ st.active.map (fun e => finEvent e.2) ++
        (if st.active.countP (fun e => !finalizeOk e.2) = 0 then []
         else [.cleanupReport (st.active.countP (fun e => !finalizeOk e.2))]) := by
  unfold cleanupActiveContext
  rw [cleanupLoop_spec]
  refine ⟨removeOk_self st.active hnd, ?_⟩
  by_cases hz : st.active.countP (fun e => !finalizeOk e.2) = 0 <;> simp [hz]

/-- A state holding three active handles of different shapes, one per
teardown outcome kind. -/
def stTeardown : RState :=
  ⟨[], [], [("a", .gen 1 .stops), ("b", .sctx 2 false), ("c", .agen 3 .raisesErr)], []⟩

/-- Witness for C4 at a concrete state: the key list is duplicate-free
and the teardown law evaluates as stated. -/
theorem c4_teardown_witness :
    (stTeardown.active.map Prod.fst).Nodup ∧
    ((cleanupActiveContext stTeardown).active =
       stTeardown.active.filter (fun e => !finalizeOk e.2) ∧
     (cleanupActiveContext stTeardown).trace =
       stTeardown.trace ++ stTeardown.active.map (fun e => finEvent e.2) ++
         (if stTeardown.active.countP (fun e => !finalizeOk e.2) = 0 then []
          else [.cleanupReport (stTeardown.active.countP (fun e => !finalizeOk e.2))])) :=
  ⟨by decide, c4_teardown_processes_every_handle stTeardown (by decide)⟩

/-- C5 counterexample: registration of open handles uses the cache-key
string alone, not the pair (provider, cache key).  Registering provider
1's paused generator and then provider 2's under the same cache key
leaves a single slot holding only provider 2's handle — two distinct
providers sharing a cache key do NOT occupy distinct slots, the earlier
handle is overwritten. -/
theorem c5_shared_key_single_slot_counterexample :
    ((handleGenerator 1 (some (.nat 1, .stops)) "k" initState).2).active
      = [("k", Handle.gen 1 .stops)] ∧
    ((handleGenerator 2 (some (.nat 2, .stops)) "k"
        (handleGenerator 1 (some (.nat 1, .stops)) "k" initState).2).2).active
      = [("k", Handle.gen 2 .stops)] := by
  exact ⟨rfl, rfl⟩

/-- A program with a single resource-generator provider yielding `v`. -/
def envGenVal (v : Nat) : Env := fun p =>
  match p with
  | 1 => ⟨[], .gen (.nat v) .stops⟩
  | _ => ⟨[], .value (.nat 0)⟩

/-- A program with a single context-manager-returning provider entering
`v`. -/
def envCtxVal (v : Nat) : Env := fun p =>
  match p with
  | 1 => ⟨[], .syncCtx (.nat v) true⟩
  | _ => ⟨[], .value (.nat 0)⟩

/-- A program where provider 1 returns a sync context manager whose exit
raises (enter value `v`) and provider 2 is a well-behaved resource
generator yielding `w`. -/
def envOverwrite (v w : Nat) : Env := fun p =>
  match p with
  | 1 => ⟨[], .syncCtx (.nat v) false⟩
  | 2 => ⟨[], .gen (.nat w) .stops⟩
  | _ => ⟨[], .value (.nat 0)⟩

/-- C5 amended: for resource-shaped providers the resolved value is only
the first produced value — the generator's first yield, or the context
manager's entered value (first two conjuncts, where `Event.opened 1 "k"`
records registration under the cache-key string) — but the handle is
registered under the cache key ALONE: in the third conjunct provider 1's
entered context manager survives its failed exit, and provider 2's
generator, registered under the same cache key, overwrites it
(`Event.opened 2 "k"` with the final active set empty and no second
finalize step for provider 1), so same-key handles of distinct providers
share one slot. -/
theorem c5_first_value_and_key_only_registration : ∀ v w : Nat,
    resolveSingle (envGenVal v) 2 (some 1) .request [] "k" [] initState =
      (.ok (.nat v),
       ⟨[((some 1, some "k"), .nat v)], [], [],
        [.invoked 1 [], .opened 1 "k", .finalized 1 .advancedGen]⟩) ∧
    resolveSingle (envCtxVal v) 2 (some 1) .request [] "k" [] initState =
      (.ok (.nat v),
       ⟨[((some 1, some "k"), .nat v)], [], [],
        [.invoked 1 [], .opened 1 "k", .finalized 1 .exitedSyncCtx]⟩) ∧
    resolveDependencies (envOverwrite v w) 3
        (some [⟨"a", some (some 1, .request)⟩, ⟨"b", some (some 2, .request)⟩])
        [] "k" initState =
      (.ok [("a", .nat v), ("b", .nat w)],
       ⟨[((some 1, some "k"), .nat v), ((some 2, some "k"), .nat w)], [], [],
        [.invoked 1 [], .opened 1 "k", .finalizeFailed 1 .exitedSyncCtx,
         .cleanupReport 1, .invoked 2 [], .opened 2 "k",
         .finalized 2 .advancedGen]⟩) := by
  intro v w
  exact ⟨rfl, rfl, rfl⟩

/-- A program with two plain value providers (identities 3 and 4) and a
provider (identity 10) declaring one parameter of every priority tier. -/
def envPriority : Env := fun p =>
  match p with
  | 3 => ⟨[], .value (.nat 9)⟩
  | 4 => ⟨[], .value (.nat 8)⟩
  | 10 => ⟨[⟨"event", none⟩, ⟨"data", none⟩,
            ⟨"x", some (some 3, .request)⟩, ⟨"y", some (some 4, .request)⟩],
           .value (.nat 1)⟩
  | _ => ⟨[], .value (.nat 0)⟩

/-- C6: parameter values are chosen by the priority chain of
`_resolve_single_dependency` lines 69-88, in declaration order.  The
reserved names `"event"` and `"data"` win over a same-named context
entry, a same-named earlier result AND a dependency marker (no provider
invocation: unchanged state); a same-named context entry wins over an
earlier result and a marker; an earlier result wins over a marker; only
an otherwise-unmatched marker parameter triggers the nested resolution
(provider 3 invoked); two marker parameters resolve in declaration
order; and the kwargs a provider is invoked with (the final conjunct's
`Event.invoked 10 kwargs`) reflect exactly this chain. -/
theorem c6_parameter_priority_order : ∀ d r : Value,
    assembleKwargsAux (resolveSingle envPriority 2) [⟨"event", some (some 3, .request)⟩]
        [("event", d)] "k" [("event", r)] initState =
      (.ok [("event", Value.event)], initState) ∧
    assembleKwargsAux (resolveSingle envPriority 2) [⟨"data", some (some 3, .request)⟩]
        [("data", d)] "k" [("data", r)] initState =
      (.ok [("data", Value.dataDict)], initState) ∧
    assembleKwargsAux (resolveSingle envPriority 2) [⟨"x", some (some 3, .request)⟩]
        [("x", d)] "k" [("x", r)] initState =
      (.ok [("x", d)], initState) ∧
    assembleKwargsAux (resolveSingle envPriority 2) [⟨"x", some (some 3, .request)⟩]
        [] "k" [("x", r)] initState =
      (.ok [("x", r)], initState) ∧
    assembleKwargsAux (resolveSingle envPriority 2) [⟨"x", some (some 3, .request)⟩]
        [] "k" [("y", r)] initState =
      (.ok [("x", .nat 9)],
       ⟨[((some 3, some "k"), .nat 9)], [], [], [.invoked 3 []]⟩) ∧
    assembleKwargsAux (resolveSingle envPriority 2)
        [⟨"a", some (some 3, .request)⟩, ⟨"b", some (some 4, .request)⟩]
        [] "k" [] initState =
      (.ok [("a", .nat 9), ("b", .nat 8)],
       ⟨[((some 3, some "k"), .nat 9), ((some 4, some "k"), .nat 8)], [], [],
        [.invoked 3 [], .invoked 4 []]⟩) ∧
    (resolveSingle envPriority 3 (some 10) .request [("x", d)] "k" [] initState).2.trace
      = [.invoked 4 [],
         .invoked 10 [("event", Value.event), ("data", Value.dataDict),
                      ("x", d), ("y", .nat 8)]] := by
  intro d r
  exact ⟨rfl, rfl, rfl, rfl, rfl, rfl, rfl⟩

/-- C7: the provider under resolution is removed from the resolving set
on every exit path of `_resolve_single_dependency` (the discard sits in
the `finally`), so a provider not marked as resolving beforehand is
never left marked afterwards — success or failure — and the resolving
set is empty again whenever a top-level `resolve_dependencies` call
returns from an empty start, whether it returned a mapping or propagated
an error. -/
theorem c7_resolving_released : ∀ (env : Env) (fuel : Nat) (dep : Option Nat) (sc : Scope)
    (data : List (String × Value)) (key : String) (resolved : List (String × Value))
    (st : RState) (hp : Option (List Param)),
    (dep ∉ st.resolving →
      dep ∉ ((resolveSingle env fuel dep sc data key resolved st).2).resolving)
    ∧ (st.resolving = [] →
      ((resolveDependencies env fuel hp data key st).2).resolving = []) := by
  intro env fuel dep sc data key resolved st hp
  constructor
  · intro hd
    cases fuel with
    | zero => exact hd
    | succ n =>
        unfold resolveSingle resolveSingleCore
        split
        · exact hd
        · intro hmem
          simp only [cleanup_resolving] at hmem
          rw [mem_removeSet] at hmem
          exact hmem.2 rfl
  · intro hres
    cases hp with
    | none => exact hres
    | some params =>
        refine List.eq_nil_iff_forall_not_mem.mpr ?_
        intro x hx
        have h := resolveLoop_sub env fuel params data key [] st x hx
        rw [hres] at h
        exact List.not_mem_nil x h

/-- A trivial program used only to instantiate the resolving-set law. -/
def envPlain : Env := fun _ => ⟨[], .value (.nat 0)⟩

/-- Witness for C7 at a concrete program and state: the hypotheses hold
at the fresh state and the resolving-set law follows by applying the
theorem there. -/
theorem c7_resolving_witness :
    ((some 7 ∉ initState.resolving) ∧ initState.resolving = []) ∧
    (some 7 ∉ ((resolveSingle envPlain 1 (some 7) .request [] "k" [] initState).2).resolving ∧
      ((resolveDependencies envPlain 1 (some []) [] "k" initState).2).resolving = []) :=
  ⟨⟨by decide, rfl⟩,
   ⟨(c7_resolving_released envPlain 1 (some 7) .request [] "k" [] initState (some [])).1
      (by decide),
    (c7_resolving_released envPlain 1 (some 7) .request [] "k" [] initState (some [])).2 rfl⟩⟩

/-- A program with a plain value provider of identity 5 returning `w`. -/
def envValue (w : Nat) : Env := fun p =>
  match p with
  | 5 => ⟨[], .value (.nat w)⟩
  | _ => ⟨[], .value (.nat 0)⟩

/-- C8: a handler parameter whose marker carries an absent provider
reference (`Depends()` with `dependency=None`) is recorded in the output
mapping as the explicit empty value `Value.none`, and the batch
continues: the following marker parameter still resolves normally. -/
theorem c8_absent_marker_records_none : ∀ w : Nat,
    resolveDependencies (envValue w) 2
        (some [⟨"a", some (Option.none, .request)⟩, ⟨"b", some (some 5, .request)⟩])
        [] "k" initState =
      (.ok [("a", Value.none), ("b", .nat w)],
       ⟨[((some 5, some "k"), .nat w)], [], [], [.invoked 5 []]⟩) := by
  intro w
  exact rfl

/-- A program with a plain value provider of identity 6 returning `v`. -/
def envService (v : Value) : Env := fun p =>
  match p with
  | 6 => ⟨[], .value v⟩
  | _ => ⟨[], .value (.nat 0)⟩

/-- C9: the middleware resolves dependencies before invoking the handler
(every resolution event precedes `Event.handlerStarted` in the trace),
merges the resolver's output mapping into the context mapping passed to
the handler (the `"service"` binding is appended to the pre-existing
context), and returns the handler's return value `rv` unchanged. -/
theorem c9_middleware_merges_and_returns : ∀ v rv d : Value,
    middlewareCall (envService v) 2
        ⟨some [⟨"service", some (some 6, .request)⟩], false, rv⟩
        [("other", d)] "k" initState =
      (.ok rv, [("other", d), ("service", v)],
       ⟨[((some 6, some "k"), v)], [], [],
        [.invoked 6 [], .handlerStarted, .handlerReturned]⟩) := by
  intro v rv d
  exact rfl

/-- A program with a provider of identity 7 whose resolved value is
Python `None`. -/
def envNoneValue : Env := fun p =>
  match p with
  | 7 => ⟨[], .value Value.none⟩
  | _ => ⟨[], .value (.nat 0)⟩

/-- C10: the cache-hit short-circuit `if cached_value is not None` never
serves a stored `None`: with a `None` entry already in the cache the
provider is re-invoked, under REQUEST and SINGLETON scope alike (first
two conjuncts); a stored non-`None` value IS served with no invocation
(third conjunct); and after resolving the `None`-valued provider from an
empty cache the empty value HAS been written to the cache, yet an
immediately following resolution invokes the provider again (fourth
conjunct: two `Event.invoked 7` events). -/
theorem c10_cached_none_not_served :
    resolveSingle envNoneValue 1 (some 7) .request [] "k" []
        ⟨[((some 7, some "k"), Value.none)], [], [], []⟩ =
      (.ok Value.none,
       ⟨[((some 7, some "k"), Value.none)], [], [], [.invoked 7 []]⟩) ∧
    resolveSingle envNoneValue 1 (some 7) .singleton [] "k" []
        ⟨[((some 7, Option.none), Value.none)], [], [], []⟩ =
      (.ok Value.none,
       ⟨[((some 7, Option.none), Value.none)], [], [], [.invoked 7 []]⟩) ∧
    resolveSingle envNoneValue 1 (some 7) .request [] "k" []
        ⟨[((some 7, some "k"), Value.nat 5)], [], [], []⟩ =
      (.ok (Value.nat 5), ⟨[((some 7, some "k"), Value.nat 5)], [], [], []⟩) ∧
    (resolveSingle envNoneValue 1 (some 7) .request [] "k" []
        (resolveSingle envNoneValue 1 (some 7) .request [] "k" [] initState).2).2 =
      ⟨[((some 7, some "k"), Value.none)], [], [], [.invoked 7 [], .invoked 7 []]⟩ := by
  exact ⟨rfl, rfl, rfl, rfl⟩
